import Mathlib

/-!
Verification of the TinyLink backend (src/tinylinkBackend/index.js).

The backend is an Express app over a Postgres `links` table. We embed the
store as a list of `Link` rows and each route handler as a pure function
from the store (plus the inputs the handler reads: the request body, the
current time `NOW()`, and the random source behind `Math.random`) to a
result and the successor store. The external URL validator
(`validUrl.isWebUri`) is a parameter, since it is a third-party library.
-/

namespace TinyLink

/-- A row of the `links` table: columns `code`, `target`, `clicks`,
`created_at`, `last_clicked` (nullable). Timestamps are abstracted as
naturals. -/
structure Link where
  code : String
  target : String
  clicks : Nat
  created_at : Nat
  last_clicked : Option Nat
deriving DecidableEq, Repr

/-- The durable store: the rows of the `links` table. -/
abbrev Store := List Link

/-- `SELECT 1 FROM links WHERE code=$1` has `rowCount > 0`. -/
def codeExists (s : Store) (c : String) : Bool :=
  s.any (fun l => l.code == c)

/-- A character matched by the character class `[A-Za-z0-9]`. -/
def isAlphanumChar (ch : Char) : Bool :=
  ('A' ≤ ch && ch ≤ 'Z') || ('a' ≤ ch && ch ≤ 'z') || ('0' ≤ ch && ch ≤ '9')

/-- `CODE_RE = /^[A-Za-z0-9]\x7b6,8\x7d$/` (index.js line 63): the whole
string is 6 to 8 alphanumeric characters. -/
def CODE_RE (s : String) : Bool :=
  decide (6 ≤ s.length) && decide (s.length ≤ 8) && s.toList.all isAlphanumChar

/-- The 62-character alphabet of `genCode` (index.js line 67). -/
def chars : List Char :=
  "ABCDEFGHIJKLMNOPQRSTUVWXYZabcdefghijklmnopqrstuvwxyz0123456789".toList

/-- `genCode(len)` (index.js lines 66-71): draw `len` characters from
`chars`. The random draws `Math.floor(Math.random() * chars.length)` are
modelled by the oracle `rnd`, reduced mod `chars.length` to stay in range. -/
def genCode (rnd : Nat → Nat) (len : Nat) : String :=
  String.mk ((List.range len).map (fun i => chars.getD (rnd i % chars.length) 'A'))

/-- Effect of `UPDATE links SET clicks = clicks + 1, last_clicked = NOW()
WHERE code = $1` on one row. -/
def bumpRow (now : Nat) (c : String) (l : Link) : Link :=
  if l.code == c then { l with clicks := l.clicks + 1, last_clicked := some now } else l

/-- `GET /:code` (index.js lines 159-190): the single conditional
`UPDATE ... RETURNING target`; `rowCount == 0` yields a 404 (`none`),
otherwise the matched row's `target` is returned and matching rows are
updated. -/
def resolveAndRecordVisit (s : Store) (c : String) (now : Nat) : Option String × Store :=
  match s.find? (fun l => l.code == c) with
  | none => (none, s)
  | some l => (some l.target, s.map (bumpRow now c))

/-- `GET /api/links/:code` (index.js lines 196-221): a plain `SELECT`;
the store is returned unchanged. -/
def getMetadata (s : Store) (c : String) : Option Link × Store :=
  (s.find? (fun l => l.code == c), s)

/-- Error responses of `POST /api/links`. -/
inductive CreateError
  | targetRequired
  | invalidTarget
  | invalidCode
  | codeConflict
  | codeGenerationExhausted
deriving DecidableEq, Repr

/-- JavaScript truthiness of the optional `code` body field: `undefined`
and the empty string are falsy. -/
def strTruthy : Option String → Bool
  | none => false
  | some s => !s.isEmpty

/-- Modelled from the spec: the `links` table schema is not in src/ (the
`INSERT INTO links(code, target)` at index.js lines 129-134 relies on its
column defaults), so per spec section 4.1 a fresh row has `clicks=0`,
`created_at=now`, `last_clicked=null`. -/
def mkLink (c target : String) (now : Nat) : Link :=
  { code := c, target := target, clicks := 0, created_at := now, last_clicked := none }

/-- The do-while generation loop of index.js lines 109-116: `attempt` is
the index of the next candidate, `fuel` the remaining tries out of
`maxAttempts = 10`. Returns the first candidate absent from the store, or
`none` when every try collided. -/
def genLoopAux (s : Store) (cand : Nat → String) : Nat → Nat → Option String
  | _, 0 => none
  | attempt, fuel + 1 =>
    if codeExists s (cand attempt) then genLoopAux s cand (attempt + 1) fuel
    else some (cand attempt)

/-- The bounded generation loop with `maxAttempts = 10` (index.js line 110). -/
def genLoop (s : Store) (cand : Nat → String) : Option String :=
  genLoopAux s cand 0 10

/-- `POST /api/links` (index.js lines 89-152). `f` is the external
`validUrl.isWebUri`; `cand k` is the candidate `genCode(7)` would produce
on the loop's `k`-th iteration; `now` is the insert timestamp. Returns the
response and the successor store. -/
def create (f : String → Bool) (s : Store) (target : String) (code : Option String)
    (cand : Nat → String) (now : Nat) : Except CreateError Link × Store :=
  if target.isEmpty then (Except.error CreateError.targetRequired, s)
  else if !f target then (Except.error CreateError.invalidTarget, s)
  else if strTruthy code && !CODE_RE (code.getD "") then
    (Except.error CreateError.invalidCode, s)
  else if strTruthy code then
    if codeExists s (code.getD "") then (Except.error CreateError.codeConflict, s)
    else (Except.ok (mkLink (code.getD "") target now),
          s ++ [mkLink (code.getD "") target now])
  else
    match genLoop s cand with
    | none => (Except.error CreateError.codeGenerationExhausted, s)
    | some c => (Except.ok (mkLink c target now), s ++ [mkLink c target now])

/-- JavaScript `parseInt(str, 10)`: skip leading whitespace, read an
optional sign and then leading decimal digits; `NaN` (here `none`) when no
digit is found or the argument is `undefined`. -/
def parseIntJS : Option String → Option Int
  | none => none
  | some s =>
    let cs := s.toList.dropWhile (fun c => c = ' ' || c = '\t' || c = '\n' || c = '\r')
    let signed : Int × List Char :=
      match cs with
      | '-' :: t => (-1, t)
      | '+' :: t => (1, t)
      | _ => (1, cs)
    let ds := signed.2.takeWhile Char.isDigit
    if ds.isEmpty then none
    else some (signed.1 * (ds.foldl (fun acc c => acc * 10 + (c.toNat - 48)) 0 : Nat))

/-- JavaScript `v || d` on a number: `NaN` and `0` are falsy. -/
def jsOrInt (v : Option Int) (d : Int) : Int :=
  match v with
  | none => d
  | some n => if n = 0 then d else n

/-- `Math.min(100, parseInt(req.query.limit, 10) || 50)` (index.js line 229). -/
def effectiveLimit (q : Option String) : Int :=
  min 100 (jsOrInt (parseIntJS q) 50)

/-- `parseInt(req.query.offset, 10) || 0` (index.js line 230). -/
def effectiveOffset (q : Option String) : Int :=
  jsOrInt (parseIntJS q) 0

/-! ### Helper lemmas -/

theorem codeExists_false_iff {s : Store} {c : String} :
    codeExists s c = false ↔ ∀ l ∈ s, l.code ≠ c := by
  simp [codeExists]

theorem codeExists_true_iff {s : Store} {c : String} :
    codeExists s c = true ↔ ∃ l ∈ s, l.code = c := by
  simp [codeExists]

theorem find?_code_none {s : Store} {c : String} (h : ∀ l ∈ s, l.code ≠ c) :
    s.find? (fun x => x.code == c) = none :=
  List.find?_eq_none.mpr (by intro x hx; simpa using h x hx)

theorem find?_code_some {s : Store} {c : String} (huniq : (s.map Link.code).Nodup)
    {l : Link} (hl : l ∈ s) (hc : l.code = c) :
    s.find? (fun x => x.code == c) = some l := by
  cases e : s.find? (fun x => x.code == c) with
  | none =>
    have := List.find?_eq_none.mp e l hl
    simp [hc] at this
  | some l' =>
    have h1 : l'.code = c := by simpa using List.find?_some e
    have h2 : l' ∈ s := List.mem_of_find?_eq_some e
    have : l' = l :=
      List.inj_on_of_nodup_map huniq h2 hl (by rw [h1, hc])
    rw [this]

theorem genLoopAux_collide (s : Store) (cand : Nat → String) :
    ∀ (fuel a : Nat), (∀ k, a ≤ k → k < a + fuel → codeExists s (cand k) = true) →
      genLoopAux s cand a fuel = none := by
  intro fuel
  induction fuel with
  | zero => intro a _; rfl
  | succ n ih =>
    intro a h
    have ha : codeExists s (cand a) = true := h a le_rfl (by omega)
    simp only [genLoopAux, ha, if_true]
    exact ih (a + 1) (fun k h1 h2 => h k (by omega) (by omega))

theorem genLoopAux_first_fresh (s : Store) (cand : Nat → String) :
    ∀ (fuel a k : Nat), a ≤ k → k < a + fuel →
      codeExists s (cand k) = false →
      (∀ j, a ≤ j → j < k → codeExists s (cand j) = true) →
      genLoopAux s cand a fuel = some (cand k) := by
  intro fuel
  induction fuel with
  | zero => intro a k h1 h2 _ _; omega
  | succ n ih =>
    intro a k h1 h2 hk hprev
    by_cases ha : a = k
    · subst ha
      simp [genLoopAux, hk]
    · have hak : codeExists s (cand a) = true := hprev a le_rfl (by omega)
      simp only [genLoopAux, hak, if_true]
      exact ih (a + 1) k (by omega) (by omega) hk (fun j hj1 hj2 => hprev j (by omega) hj2)

theorem genLoopAux_some_fresh (s : Store) (cand : Nat → String) :
    ∀ (fuel a : Nat) (c : String), genLoopAux s cand a fuel = some c →
      codeExists s c = false ∧ ∃ k, a ≤ k ∧ k < a + fuel ∧ c = cand k := by
  intro fuel
  induction fuel with
  | zero => intro a c h; simp [genLoopAux] at h
  | succ n ih =>
    intro a c h
    by_cases ha : codeExists s (cand a) = true
    · simp only [genLoopAux, ha, if_true] at h
      obtain ⟨h1, k, hk1, hk2, hk3⟩ := ih (a + 1) c h
      exact ⟨h1, k, by omega, by omega, hk3⟩
    · have ha' : codeExists s (cand a) = false := by
        cases hb : codeExists s (cand a) with
        | false => rfl
        | true => exact absurd hb ha
      simp only [genLoopAux, ha', Bool.false_eq_true, if_false, Option.some.injEq] at h
      exact ⟨h ▸ ha', a, le_rfl, by omega, h.symm⟩

theorem genLoop_exhausted {s : Store} {cand : Nat → String}
    (h : ∀ k, k < 10 → codeExists s (cand k) = true) :
    genLoop s cand = none :=
  genLoopAux_collide s cand 10 0 (fun k _ h2 => h k (by omega))

theorem genLoop_first_fresh {s : Store} {cand : Nat → String} {k : Nat} (hk : k < 10)
    (hfresh : codeExists s (cand k) = false)
    (hprev : ∀ j, j < k → codeExists s (cand j) = true) :
    genLoop s cand = some (cand k) :=
  genLoopAux_first_fresh s cand 10 0 k (by omega) (by omega) hfresh
    (fun j _ hj => hprev j hj)

theorem genLoop_some_fresh {s : Store} {cand : Nat → String} {c : String}
    (h : genLoop s cand = some c) :
    codeExists s c = false ∧ ∃ k, k < 10 ∧ c = cand k := by
  obtain ⟨h1, k, _, hk2, hk3⟩ := genLoopAux_some_fresh s cand 10 0 c h
  exact ⟨h1, k, by omega, hk3⟩

theorem create_requested {f : String → Bool} {s : Store} {target c : String}
    {cand : Nat → String} {now : Nat}
    (h1 : target.isEmpty = false) (h2 : f target = true) (h3 : c.isEmpty = false) :
    create f s target (some c) cand now =
      if CODE_RE c then
        (if codeExists s c then (Except.error CreateError.codeConflict, s)
         else (Except.ok (mkLink c target now), s ++ [mkLink c target now]))
      else (Except.error CreateError.invalidCode, s) := by
  by_cases hc : CODE_RE c <;>
    simp [create, strTruthy, h1, h2, h3, hc]

theorem create_auto {f : String → Bool} {s : Store} {target : String}
    {cand : Nat → String} {now : Nat} (code : Option String)
    (h1 : target.isEmpty = false) (h2 : f target = true) (h0 : strTruthy code = false) :
    create f s target code cand now =
      match genLoop s cand with
      | none => (Except.error CreateError.codeGenerationExhausted, s)
      | some c => (Except.ok (mkLink c target now), s ++ [mkLink c target now]) := by
  simp [create, h1, h2, h0]

theorem isEmpty_false_of_length_pos {c : String} (h : 0 < c.length) :
    c.isEmpty = false := by
  rw [Bool.eq_false_iff]
  intro hc
  rw [String.isEmpty_iff] at hc
  subst hc
  simp at h

theorem CODE_RE_isEmpty_false {c : String} (h : CODE_RE c = true) :
    c.isEmpty = false := by
  have h6 : 6 ≤ c.length := by
    simp only [CODE_RE, Bool.and_eq_true, decide_eq_true_eq] at h
    exact h.1.1
  exact isEmpty_false_of_length_pos (by omega)

theorem create_shape (f : String → Bool) (s : Store) (target : String)
    (code : Option String) (cand : Nat → String) (now : Nat) :
    (∃ e, create f s target code cand now = (Except.error e, s)) ∨
    (∃ l, create f s target code cand now = (Except.ok l, s ++ [l])) := by
  unfold create
  split
  · exact Or.inl ⟨_, rfl⟩
  · split
    · exact Or.inl ⟨_, rfl⟩
    · split
      · exact Or.inl ⟨_, rfl⟩
      · split
        · split
          · exact Or.inl ⟨_, rfl⟩
          · exact Or.inr ⟨_, rfl⟩
        · split
          · exact Or.inl ⟨_, rfl⟩
          · exact Or.inr ⟨_, rfl⟩

/-! ### Claim theorems -/

/-- A concrete two-row store used to instantiate witnesses: two links with
distinct codes. -/
def demoStore : Store :=
  [mkLink "abc123" "https://a.example" 1, mkLink "zzz999" "https://b.example" 2]

/-- Claim C1: for every store and code, if a link with that code exists,
`resolveAndRecordVisit` increments that link's `clicks` by exactly 1, sets
its `last_clicked` to the current time, leaves `code`, `target` and
`created_at` unchanged (the updated row is the old row with only those two
fields changed), leaves every other link unchanged, keeps the store's size,
and returns the link's `target`; if no link with that code exists, it
returns not-found (`none`) and the store is unchanged. -/
theorem C1_resolveAndRecordVisit (s : Store) (c : String) (now : Nat)
    (huniq : (s.map Link.code).Nodup) :
    (codeExists s c = false → resolveAndRecordVisit s c now = (none, s)) ∧
    (∀ l ∈ s, l.code = c →
      ∃ s', resolveAndRecordVisit s c now = (some l.target, s') ∧
        s'.length = s.length ∧
        { l with clicks := l.clicks + 1, last_clicked := some now } ∈ s' ∧
        (∀ x ∈ s, x.code ≠ c → x ∈ s')) := by
  constructor
  · intro h
    have hfind := find?_code_none (codeExists_false_iff.mp h)
    simp [resolveAndRecordVisit, hfind]
  · intro l hl hc
    have hfind := find?_code_some huniq hl hc
    refine ⟨s.map (bumpRow now c), by simp [resolveAndRecordVisit, hfind], by simp, ?_, ?_⟩
    · have hb : bumpRow now c l = { l with clicks := l.clicks + 1, last_clicked := some now } := by
        simp [bumpRow, hc]
      exact hb ▸ List.mem_map_of_mem _ hl
    · intro x hx hxc
      have hb : bumpRow now c x = x := by simp [bumpRow, hxc]
      exact hb ▸ List.mem_map_of_mem _ hx

/-- Witness for C1: both branches instantiated at a concrete store,
hypotheses discharged by evaluation. -/
theorem C1_resolveAndRecordVisit_witness :
    (codeExists demoStore "abc123" = false →
      resolveAndRecordVisit demoStore "abc123" 9 = (none, demoStore)) ∧
    (∀ l ∈ demoStore, l.code = "abc123" →
      ∃ s', resolveAndRecordVisit demoStore "abc123" 9 = (some l.target, s') ∧
        s'.length = demoStore.length ∧
        { l with clicks := l.clicks + 1, last_clicked := some 9 } ∈ s' ∧
        (∀ x ∈ demoStore, x.code ≠ "abc123" → x ∈ s')) :=
  C1_resolveAndRecordVisit demoStore "abc123" 9 (by decide)

/-- Claim C8: `getMetadata` is a pure read: the store after the call is exactly
the store before it (so no link's `clicks` or `last_clicked` changes), and
the result is the matching link when one exists and not-found otherwise. -/
theorem C8_getMetadata_pure (s : Store) (c : String)
    (huniq : (s.map Link.code).Nodup) :
    (getMetadata s c).2 = s ∧
    (∀ l ∈ s, l.code = c → (getMetadata s c).1 = some l) ∧
    ((∀ l ∈ s, l.code ≠ c) → (getMetadata s c).1 = none) := by
  refine ⟨rfl, ?_, ?_⟩
  · intro l hl hc
    simpa [getMetadata] using find?_code_some huniq hl hc
  · intro h
    simpa [getMetadata] using find?_code_none h

/-- Witness for C8 at a concrete store. -/
theorem C8_getMetadata_pure_witness :
    ((getMetadata demoStore "zzz999").2 = demoStore ∧
      (∀ l ∈ demoStore, l.code = "zzz999" → (getMetadata demoStore "zzz999").1 = some l) ∧
      ((∀ l ∈ demoStore, l.code ≠ "zzz999") → (getMetadata demoStore "zzz999").1 = none)) :=
  C8_getMetadata_pure demoStore "zzz999" (by decide)

/-- Claim C2: with a valid non-empty target and a supplied non-empty requested
code, `create` fails with `InvalidCode` exactly when the requested code
does not match `CODE_RE` (6 to 8 case-sensitive alphanumeric characters). -/
theorem C2_create_invalidCode (f : String → Bool) (s : Store) (target c : String)
    (cand : Nat → String) (now : Nat)
    (h1 : target.isEmpty = false) (h2 : f target = true) (h3 : c.isEmpty = false) :
    ((create f s target (some c) cand now).1 = Except.error CreateError.invalidCode ↔
      CODE_RE c = false) := by
  rw [create_requested h1 h2 h3]
  by_cases hc : CODE_RE c
  · by_cases he : codeExists s c <;> simp [hc, he]
  · simp [hc]

/-- Witness for C2: the spec's example inputs — `"ab"` (too short) is
rejected with `InvalidCode`, and `"Ab3_9"` (underscore) also is. -/
theorem C2_create_invalidCode_witness :
    ((create (fun _ => true) [] "https://x.example" (some "ab") (fun _ => "AAAAAAA") 0).1 =
        Except.error CreateError.invalidCode ↔ CODE_RE "ab" = false) ∧
    (create (fun _ => true) [] "https://x.example" (some "Ab3_9") (fun _ => "AAAAAAA") 0).1 =
        Except.error CreateError.invalidCode :=
  ⟨C2_create_invalidCode (fun _ => true) [] "https://x.example" "ab"
      (fun _ => "AAAAAAA") 0 rfl rfl rfl,
    (C2_create_invalidCode (fun _ => true) [] "https://x.example" "Ab3_9"
      (fun _ => "AAAAAAA") 0 rfl rfl rfl).mpr (by decide)⟩

/-- Claim C3: with a valid target and a requested code matching the pattern, if
the code already exists `create` fails with `CodeConflict` and leaves the
store unchanged; and of two sequential creates with the same requested
code (the code initially free), the first succeeds and inserts, and the
second fails with `CodeConflict` leaving the store as the first left it. -/
theorem C3_create_codeConflict (f : String → Bool) (s : Store) (t1 t2 c : String)
    (cand1 cand2 : Nat → String) (n1 n2 : Nat)
    (h1 : t1.isEmpty = false) (h2 : f t1 = true)
    (h1' : t2.isEmpty = false) (h2' : f t2 = true)
    (hcode : CODE_RE c = true) :
    (codeExists s c = true →
      create f s t1 (some c) cand1 n1 = (Except.error CreateError.codeConflict, s)) ∧
    (codeExists s c = false →
      create f s t1 (some c) cand1 n1 = (Except.ok (mkLink c t1 n1), s ++ [mkLink c t1 n1]) ∧
      create f (s ++ [mkLink c t1 n1]) t2 (some c) cand2 n2 =
        (Except.error CreateError.codeConflict, s ++ [mkLink c t1 n1])) := by
  have h3 : c.isEmpty = false := CODE_RE_isEmpty_false hcode
  constructor
  · intro he
    rw [create_requested h1 h2 h3]
    simp [hcode, he]
  · intro he
    constructor
    · rw [create_requested h1 h2 h3]
      simp [hcode, he]
    · rw [create_requested h1' h2' h3]
      have hex : codeExists (s ++ [mkLink c t1 n1]) c = true :=
        codeExists_true_iff.mpr ⟨mkLink c t1 n1, by simp, rfl⟩
      simp [hcode, hex]

/-- Witness for C3 at a concrete free code on the empty store. -/
theorem C3_create_codeConflict_witness :
    (codeExists [] "code01" = true →
      create (fun _ => true) [] "https://a.example" (some "code01") (fun _ => "AAAAAAA") 1 =
        (Except.error CreateError.codeConflict, [])) ∧
    (codeExists [] "code01" = false →
      create (fun _ => true) [] "https://a.example" (some "code01") (fun _ => "AAAAAAA") 1 =
        (Except.ok (mkLink "code01" "https://a.example" 1),
         [] ++ [mkLink "code01" "https://a.example" 1]) ∧
      create (fun _ => true) ([] ++ [mkLink "code01" "https://a.example" 1])
          "https://b.example" (some "code01") (fun _ => "AAAAAAA") 2 =
        (Except.error CreateError.codeConflict,
         [] ++ [mkLink "code01" "https://a.example" 1])) :=
  C3_create_codeConflict (fun _ => true) [] "https://a.example" "https://b.example"
    "code01" (fun _ => "AAAAAAA") (fun _ => "AAAAAAA") 1 2 rfl rfl rfl rfl (by decide)

theorem genCode_length (rnd : Nat → Nat) (len : Nat) :
    (genCode rnd len).length = len := by
  simp [genCode, String.length]

theorem genCode_mem_chars (rnd : Nat → Nat) (len : Nat) :
    ∀ ch ∈ (genCode rnd len).toList, ch ∈ chars := by
  intro ch hch
  simp only [genCode, String.toList, List.mem_map, List.mem_range] at hch
  obtain ⟨i, _, rfl⟩ := hch
  have hlt : rnd i % chars.length < chars.length := Nat.mod_lt _ (by decide)
  rw [List.getD_eq_getElem _ _ hlt]
  exact List.getElem_mem _

theorem chars_alnum : ∀ ch ∈ chars, isAlphanumChar ch = true := by decide

theorem CODE_RE_genCode (rnd : Nat → Nat) : CODE_RE (genCode rnd 7) = true := by
  have hlen : (genCode rnd 7).length = 7 := genCode_length rnd 7
  have hmem := genCode_mem_chars rnd 7
  simp only [CODE_RE, hlen, Bool.and_eq_true, decide_eq_true_eq, List.all_eq_true]
  exact ⟨⟨by omega, by omega⟩, fun ch hch => chars_alnum ch (hmem ch hch)⟩

/-- Claim C4: a successful `create` with no requested code persists a link whose
code is 7 characters drawn from the 62-character alphanumeric alphabet
(hence matching the 6-to-8 pattern), with `clicks = 0`,
`last_clicked = null`, `created_at = now`, appended to the store; and
`getMetadata` with that code then returns that link, whose `clicks` is 0. -/
theorem C4_create_autogenerated (f : String → Bool) (s : Store) (target : String)
    (rnd : Nat → Nat → Nat) (now : Nat) (l : Link) (s' : Store)
    (h1 : target.isEmpty = false) (h2 : f target = true)
    (hok : create f s target none (fun i => genCode (rnd i) 7) now = (Except.ok l, s')) :
    CODE_RE l.code = true ∧ l.code.length = 7 ∧
    (∀ ch ∈ l.code.toList, ch ∈ chars) ∧ chars.length = 62 ∧
    l.clicks = 0 ∧ l.last_clicked = none ∧ l.created_at = now ∧ l.target = target ∧
    s' = s ++ [l] ∧ (getMetadata s' l.code).1 = some l ∧
    (∀ m, (getMetadata s' l.code).1 = some m → m.clicks = 0) := by
  rw [create_auto none h1 h2 rfl] at hok
  cases e : genLoop s (fun i => genCode (rnd i) 7) with
  | none =>
    rw [e] at hok
    simp at hok
  | some c =>
    rw [e] at hok
    simp only [Prod.mk.injEq, Except.ok.injEq] at hok
    obtain ⟨hl, hs⟩ := hok
    subst hl
    subst hs
    obtain ⟨hfresh, k, _, hck⟩ := genLoop_some_fresh e
    subst hck
    have hn : List.find? (fun x => x.code == genCode (rnd k) 7) s = none :=
      find?_code_none (codeExists_false_iff.mp hfresh)
    have hmeta : (getMetadata (s ++ [mkLink (genCode (rnd k) 7) target now])
        (mkLink (genCode (rnd k) 7) target now).code).1 =
        some (mkLink (genCode (rnd k) 7) target now) := by
      simp only [getMetadata, mkLink]
      rw [List.find?_append, hn]
      simp [List.find?]
    refine ⟨CODE_RE_genCode (rnd k), genCode_length (rnd k) 7,
      genCode_mem_chars (rnd k) 7, by decide, rfl, rfl, rfl, rfl, rfl, hmeta, ?_⟩
    intro m hm
    rw [hmeta] at hm
    cases hm
    rfl

/-- Witness for C4: a concrete successful auto-generated create on the
empty store, with the constant-zero random oracle. -/
theorem C4_create_autogenerated_witness :
    CODE_RE (mkLink "AAAAAAA" "https://x.example" 3).code = true ∧
    (mkLink "AAAAAAA" "https://x.example" 3).code.length = 7 ∧
    (∀ ch ∈ (mkLink "AAAAAAA" "https://x.example" 3).code.toList, ch ∈ chars) ∧
    chars.length = 62 ∧
    (mkLink "AAAAAAA" "https://x.example" 3).clicks = 0 ∧
    (mkLink "AAAAAAA" "https://x.example" 3).last_clicked = none ∧
    (mkLink "AAAAAAA" "https://x.example" 3).created_at = 3 ∧
    (mkLink "AAAAAAA" "https://x.example" 3).target = "https://x.example" ∧
    [mkLink "AAAAAAA" "https://x.example" 3] = [] ++ [mkLink "AAAAAAA" "https://x.example" 3] ∧
    (getMetadata [mkLink "AAAAAAA" "https://x.example" 3]
      (mkLink "AAAAAAA" "https://x.example" 3).code).1 =
        some (mkLink "AAAAAAA" "https://x.example" 3) ∧
    (∀ m, (getMetadata [mkLink "AAAAAAA" "https://x.example" 3]
      (mkLink "AAAAAAA" "https://x.example" 3).code).1 = some m → m.clicks = 0) :=
  C4_create_autogenerated (fun _ => true) [] "https://x.example" (fun _ _ => 0) 3
    (mkLink "AAAAAAA" "https://x.example" 3) [mkLink "AAAAAAA" "https://x.example" 3]
    rfl rfl rfl

/-- Claim C5: with no requested code the generation loop makes at most 10
attempts: it returns the first candidate absent from the store (some
candidate `k < 10` fresh, all earlier ones colliding, is used as the new
link's code), and when all 10 candidates collide, `create` fails with
`CodeGenerationExhausted` and the store is unchanged. -/
theorem C5_generation_bounded (f : String → Bool) (s : Store) (target : String)
    (cand : Nat → String) (now : Nat)
    (h1 : target.isEmpty = false) (h2 : f target = true) :
    ((∀ k, k < 10 → codeExists s (cand k) = true) →
      create f s target none cand now =
        (Except.error CreateError.codeGenerationExhausted, s)) ∧
    (∀ k, k < 10 → codeExists s (cand k) = false →
      (∀ j, j < k → codeExists s (cand j) = true) →
      create f s target none cand now =
        (Except.ok (mkLink (cand k) target now), s ++ [mkLink (cand k) target now])) := by
  constructor
  · intro h
    rw [create_auto none h1 h2 rfl, genLoop_exhausted h]
  · intro k hk hf hp
    rw [create_auto none h1 h2 rfl, genLoop_first_fresh hk hf hp]

/-- Witness for C5: a one-row store and the constant candidate stream that
always collides, plus the fresh-at-0 case on the same inputs. -/
theorem C5_generation_bounded_witness :
    ((∀ k, k < 10 → codeExists [mkLink "AAAAAAA" "https://a.example" 0] ((fun _ => "AAAAAAA") k) = true) →
      create (fun _ => true) [mkLink "AAAAAAA" "https://a.example" 0] "https://x.example"
          none (fun _ => "AAAAAAA") 5 =
        (Except.error CreateError.codeGenerationExhausted,
         [mkLink "AAAAAAA" "https://a.example" 0])) ∧
    (∀ k, k < 10 →
      codeExists [mkLink "AAAAAAA" "https://a.example" 0] ((fun _ => "AAAAAAA") k) = false →
      (∀ j, j < k → codeExists [mkLink "AAAAAAA" "https://a.example" 0] ((fun _ => "AAAAAAA") j) = true) →
      create (fun _ => true) [mkLink "AAAAAAA" "https://a.example" 0] "https://x.example"
          none (fun _ => "AAAAAAA") 5 =
        (Except.ok (mkLink ((fun _ => "AAAAAAA") k) "https://x.example" 5),
         [mkLink "AAAAAAA" "https://a.example" 0] ++
           [mkLink ((fun _ => "AAAAAAA") k) "https://x.example" 5])) :=
  C5_generation_bounded (fun _ => true) [mkLink "AAAAAAA" "https://a.example" 0]
    "https://x.example" (fun _ => "AAAAAAA") 5 rfl rfl

/-- Claim C9: whenever `create` fails with any error, the store is left exactly
as it was: no link inserted and no link modified. -/
theorem C9_create_error_frame (f : String → Bool) (s : Store) (target : String)
    (code : Option String) (cand : Nat → String) (now : Nat) (e : CreateError)
    (h : (create f s target code cand now).1 = Except.error e) :
    (create f s target code cand now).2 = s := by
  rcases create_shape f s target code cand now with ⟨e', he⟩ | ⟨l, hl⟩
  · rw [he]
  · rw [hl] at h
    simp at h

/-- Witness for C9: a rejected target leaves the store unchanged. -/
theorem C9_create_error_frame_witness :
    (create (fun _ => false) [] "https://x.example" none (fun _ => "AAAAAAA") 0).2 = [] :=
  C9_create_error_frame (fun _ => false) [] "https://x.example" none (fun _ => "AAAAAAA") 0
    CreateError.invalidTarget rfl

/-- Claim C10: a requested code equal to the empty string behaves exactly like
an absent code: `create` returns the very same outcome as with no code, in
particular it never fails with `InvalidCode`, and on success the generated
code has 7 characters. -/
theorem C10_create_emptyCode (f : String → Bool) (s : Store) (target : String)
    (rnd : Nat → Nat → Nat) (now : Nat)
    (h1 : target.isEmpty = false) (h2 : f target = true) :
    create f s target (some "") (fun i => genCode (rnd i) 7) now =
      create f s target none (fun i => genCode (rnd i) 7) now ∧
    (create f s target (some "") (fun i => genCode (rnd i) 7) now).1 ≠
      Except.error CreateError.invalidCode ∧
    (∀ l s', create f s target (some "") (fun i => genCode (rnd i) 7) now =
      (Except.ok l, s') → l.code.length = 7) := by
  have hempty : strTruthy (some "") = false := rfl
  have heq : create f s target (some "") (fun i => genCode (rnd i) 7) now =
      create f s target none (fun i => genCode (rnd i) 7) now := by
    rw [create_auto (some "") h1 h2 hempty, create_auto none h1 h2 rfl]
  refine ⟨heq, ?_, ?_⟩
  · rw [create_auto (some "") h1 h2 hempty]
    cases e : genLoop s (fun i => genCode (rnd i) 7) with
    | none => simp
    | some c => simp
  · intro l s' hok
    rw [create_auto (some "") h1 h2 hempty] at hok
    cases e : genLoop s (fun i => genCode (rnd i) 7) with
    | none =>
      rw [e] at hok
      simp at hok
    | some c =>
      rw [e] at hok
      simp only [Prod.mk.injEq, Except.ok.injEq] at hok
      obtain ⟨hl, _⟩ := hok
      obtain ⟨_, k, _, hck⟩ := genLoop_some_fresh e
      subst hl
      subst hck
      exact genCode_length (rnd k) 7

/-- Witness for C10: the empty-string code on the empty store, with the
constant-zero random oracle. -/
theorem C10_create_emptyCode_witness :
    create (fun _ => true) [] "https://x.example" (some "") (fun i => genCode ((fun _ _ => 0) i) 7) 5 =
      create (fun _ => true) [] "https://x.example" none (fun i => genCode ((fun _ _ => 0) i) 7) 5 ∧
    (create (fun _ => true) [] "https://x.example" (some "") (fun i => genCode ((fun _ _ => 0) i) 7) 5).1 ≠
      Except.error CreateError.invalidCode ∧
    (∀ l s', create (fun _ => true) [] "https://x.example" (some "")
      (fun i => genCode ((fun _ _ => 0) i) 7) 5 = (Except.ok l, s') → l.code.length = 7) :=
  C10_create_emptyCode (fun _ => true) [] "https://x.example" (fun _ _ => 0) 5 rfl rfl

/-- Claim C6 counterexample: the claim says the effective limit is clamped to
[1,100] for every caller input, but for the query value "-5" the code
computes `Math.min(100, -5) = -5`, an effective limit below 1. -/
theorem C6_limit_counterexample :
    effectiveLimit (some "-5") = -5 ∧ ¬(1 ≤ effectiveLimit (some "-5")) := by
  decide

/-- Claim C6 amended: the effective limit is capped above at 100 and defaults to
50 when the limit parameter is absent, unparsable, or parses to 0; a
nonzero parsed value `n` yields `min 100 n`, so negative caller-supplied
limits are used as-is with no lower clamp. -/
theorem C6_limit_amended (q : Option String) :
    effectiveLimit q ≤ 100 ∧
    (parseIntJS q = none → effectiveLimit q = 50) ∧
    (parseIntJS q = some 0 → effectiveLimit q = 50) ∧
    (∀ n : Int, parseIntJS q = some n → n ≠ 0 → effectiveLimit q = min 100 n) := by
  refine ⟨min_le_left _ _, ?_, ?_, ?_⟩
  · intro h
    simp [effectiveLimit, jsOrInt, h]
  · intro h
    simp [effectiveLimit, jsOrInt, h]
  · intro n h hn
    simp [effectiveLimit, jsOrInt, h, hn]

/-- Witness for C6 amended: at the caller input "-5" the effective limit
is `min 100 (-5)`, i.e. the negative value passes through. -/
theorem C6_limit_amended_witness :
    effectiveLimit (some "-5") ≤ 100 ∧ effectiveLimit (some "-5") = min 100 (-5) :=
  ⟨(C6_limit_amended (some "-5")).1,
    (C6_limit_amended (some "-5")).2.2.2 (-5) (by decide) (by decide)⟩

/-- Claim C7 counterexample: the claim says negative caller-supplied offsets are
treated as 0, but for the query value "-5" the code computes
`parseInt("-5") || 0 = -5` (negative numbers are truthy in JavaScript), so
the effective offset is -5, not 0. -/
theorem C7_offset_counterexample :
    effectiveOffset (some "-5") = -5 ∧ effectiveOffset (some "-5") ≠ 0 := by
  decide

/-- Claim C7 amended: the effective offset defaults to 0 when the offset
parameter is absent or unparsable, and every parsed value — negative ones
included — is used unchanged. -/
theorem C7_offset_amended (q : Option String) :
    (parseIntJS q = none → effectiveOffset q = 0) ∧
    (∀ n : Int, parseIntJS q = some n → effectiveOffset q = n) := by
  constructor
  · intro h
    simp [effectiveOffset, jsOrInt, h]
  · intro n h
    by_cases hn : n = 0 <;> simp [effectiveOffset, jsOrInt, h, hn]

/-- Witness for C7 amended: the caller input "12" yields offset 12. -/
theorem C7_offset_amended_witness : effectiveOffset (some "12") = 12 :=
  (C7_offset_amended (some "12")).2 12 (by decide)

end TinyLink
